import Mathlib

/-!
Verification of the PAMS alert decision pipeline: a shallow embedding of the
core scoring, deduplication, SLA and escalation logic
(`backend/ml/classification.py` and `backend/ml/decision_engine.py`),
with theorems settling the spec's claims about it.

Conventions of the embedding:
* Python floats become `ℚ`; timestamps become `ℚ` measured in hours, and the
  wall clock `datetime.utcnow()` is threaded as an explicit `now : ℚ`
  parameter (the spec itself demands an explicit per-call `now`).
* Python dicts with a known field set become structures with `Option` fields
  (`none` = key absent); `d.get(k, v)` is `Option.getD`, and `d[k]` on a
  possibly-missing key is modelled in `Except` (a `KeyError`).
* `datetime.fromisoformat` on a malformed string raises, so a stored
  creation time is either a datetime or a string that may fail to parse.
-/

/-- An ISO-format creation-time string: either it parses to a timestamp
(in hours) or `datetime.fromisoformat` raises `ValueError` on it. -/
inductive IsoStr where
  | wellFormed (t : ℚ)
  | malformed
deriving DecidableEq, Repr

/-- A value stored under `created_at`: a datetime, or a string
(`decision_engine.py` checks `isinstance(created_at, str)`). -/
inductive DateVal where
  | dt (t : ℚ)
  | str (s : IsoStr)
deriving DecidableEq, Repr

/-- Embeds `datetime.fromisoformat`: parses a well-formed string, raises otherwise. -/
def fromisoformat : IsoStr → Except String ℚ
  | .wellFormed t => Except.ok t
  | .malformed => Except.error "ValueError: Invalid isoformat string"

/-- The `if isinstance(created_at, str): created_at = fromisoformat(...)`
normalisation applied wherever a creation time is read. -/
def toDatetime : DateVal → Except String ℚ
  | .dt t => Except.ok t
  | .str s => fromisoformat s

/-- Python 3 `round` to an integer: round half to even. -/
def round_half_even (q : ℚ) : ℤ :=
  if q - ⌊q⌋ < 1/2 then ⌊q⌋
  else if (1 : ℚ)/2 < q - ⌊q⌋ then ⌊q⌋ + 1
  else if Even ⌊q⌋ then ⌊q⌋ else ⌊q⌋ + 1

/-- Python `round(q, n)` for nonnegative `n`. -/
def py_round (n : ℕ) (q : ℚ) : ℚ := (round_half_even (q * 10 ^ n) : ℚ) / 10 ^ n

/-- Python `str.lower()` (ASCII case folding suffices for the severity
strings involved): lower-case every character. -/
def py_lower (s : String) : String := ⟨s.data.map Char.toLower⟩

/-- The `severity_weights` dict lookup of
`RiskScoreCalculator.calculate_composite_risk`, applied to
`severity.lower()`, with the dict's `.get` default `0.5`. -/
def severity_weight_of (severity : String) : ℚ :=
  if py_lower severity = "critical" then 1
  else if py_lower severity = "high" then 3/4
  else if py_lower severity = "medium" then 1/2
  else if py_lower severity = "low" then 1/4
  else 1/2

/-- The composite-score formula of `calculate_composite_risk` (before the
`round(..., 3)` applied to the returned field):
`(severity*0.3 + likelihood*0.25 + impact*0.25 + confidence*0.2) * time_sensitivity`. -/
def composite_score_formula (severity : String) (likelihood impact confidence time_sensitivity : ℚ) : ℚ :=
  (severity_weight_of severity * (3/10) + likelihood * (1/4) +
    impact * (1/4) + confidence * (1/5)) * time_sensitivity

/-- The priority-tier chain of `calculate_composite_risk`, applied to the
(unrounded) composite score. -/
def priority_of_score (s : ℚ) : String :=
  if 4/5 ≤ s then "p1"
  else if 3/5 ≤ s then "p2"
  else if 2/5 ≤ s then "p3"
  else "p4"

/-- The priority label accompanying each tier. -/
def priority_label_of_score (s : ℚ) : String :=
  if 4/5 ≤ s then "Critical - Immediate Action"
  else if 3/5 ≤ s then "High - Action Required"
  else if 2/5 ≤ s then "Medium - Monitor Closely"
  else "Low - Routine Review"

/-- The `components` sub-dict returned by `calculate_composite_risk`. -/
structure RiskComponents where
  severity : ℚ
  likelihood : ℚ
  impact : ℚ
  confidence : ℚ
  time_sensitivity : ℚ
deriving DecidableEq, Repr

/-- The dict returned by `RiskScoreCalculator.calculate_composite_risk`. -/
structure RiskResult where
  composite_score : ℚ
  priority : String
  priority_label : String
  components : RiskComponents
deriving DecidableEq, Repr

/-- Embeds `RiskScoreCalculator.calculate_composite_risk` (classification.py):
severity weight lookup, weighted sum times time sensitivity, priority tiers,
with the returned `composite_score` rounded to 3 digits. -/
def calculate_composite_risk (severity : String) (likelihood impact confidence : ℚ)
    (time_sensitivity : ℚ) : RiskResult :=
  let severity_score := severity_weight_of severity
  let composite := composite_score_formula severity likelihood impact confidence time_sensitivity
  { composite_score := py_round 3 composite
    priority := priority_of_score composite
    priority_label := priority_label_of_score composite
    components :=
      { severity := severity_score
        likelihood := likelihood
        impact := impact
        confidence := confidence
        time_sensitivity := time_sensitivity } }

/-- An alert record as passed through the decision engine: a dict whose
relevant keys may each be absent (`none`).  Timestamps are rationals in
hours; ids are naturals.  Includes the keys written by enrichment. -/
structure Alert where
  id : Option ℕ := none
  product_id : Option String := none
  category : Option String := none
  severity : Option String := none
  description : Option String := none
  confidence : Option ℚ := none
  impact_score : Option ℚ := none
  likelihood : Option ℚ := none
  priority : Option String := none
  source : Option String := none
  created_at : Option DateVal := none
  product_name : Option String := none
  product_sku : Option String := none
  product_category : Option String := none
  current_stock : Option ℚ := none
  reorder_point : Option ℚ := none
  stock_health : Option String := none
  merged_alert_ids : Option (List (Option ℕ)) := none
deriving DecidableEq, Repr

/-- A product record supplied by the product lookup. -/
structure Product where
  name : Option String := none
  sku : Option String := none
  category : Option String := none
  current_stock : Option ℚ := none
  reorder_point : Option ℚ := none
deriving DecidableEq, Repr

/-- The dict returned by `AlertScorer.calculate_alert_score`: the risk result
plus the context keys the scorer adds, or the neutral fallback built in its
`except` handler (in which case only `composite_score`, `priority`,
`priority_label` and `error` are present). -/
structure AlertScore where
  composite_score : ℚ
  priority : String
  priority_label : String
  components : Option RiskComponents := none
  age_hours : Option ℚ := none
  category : Option String := none
  source : Option String := none
  error : Option String := none
deriving DecidableEq, Repr

/-- The body of the `try` block of `AlertScorer.calculate_alert_score`:
defaults for missing fields, age-based time sensitivity, composite risk.
The only fallible step is parsing a string `created_at`. -/
def calculate_alert_score_inner (now : ℚ) (a : Alert) : Except String AlertScore := do
  let severity := a.severity.getD "low"
  let confidence := a.confidence.getD (1/2)
  let impact_score := a.impact_score.getD (1/2)
  let likelihood := a.likelihood.getD (1/2)
  let created_at ← toDatetime (a.created_at.getD (.dt now))
  let age_hours := now - created_at
  let time_sensitivity := max (1/2) (1 - age_hours / 168)
  let r := calculate_composite_risk severity likelihood impact_score confidence time_sensitivity
  Except.ok
    { composite_score := r.composite_score
      priority := r.priority
      priority_label := r.priority_label
      components := some r.components
      age_hours := some age_hours
      category := some (a.category.getD "unknown")
      source := some (a.source.getD "unknown")
      error := none }

/-- Embeds `AlertScorer.calculate_alert_score`: the `try` body, with the `except`
handler returning the neutral `{composite_score: 0.5, priority: "p3"}`. -/
def calculate_alert_score (now : ℚ) (a : Alert) : AlertScore :=
  match calculate_alert_score_inner now a with
  | .ok r => r
  | .error e =>
    { composite_score := 1/2
      priority := "p3"
      priority_label := "Error in scoring"
      error := some e }

/-- One element of the list built by `AlertScorer.batch_score_alerts`:
`{**alert, **score_result}` (the alert together with its score fields). -/
structure ScoredAlert where
  alert : Alert
  score : AlertScore
deriving DecidableEq, Repr

/-- The sort key of `batch_score_alerts`: `x.get('composite_score', 0)`
(always present after scoring). -/
def scored_key (s : ScoredAlert) : ℚ := s.score.composite_score

/-- The comparison realised by `list.sort(key=..., reverse=True)`:
descending composite score. -/
def scored_rel (x y : ScoredAlert) : Prop := scored_key y ≤ scored_key x

instance : DecidableRel scored_rel := fun x y =>
  inferInstanceAs (Decidable (scored_key y ≤ scored_key x))

instance : IsTotal ScoredAlert scored_rel := ⟨fun x y => le_total (scored_key y) (scored_key x)⟩

instance : IsTrans ScoredAlert scored_rel :=
  ⟨fun _ _ _ h h' => le_trans h' h⟩

/-- Embeds `AlertScorer.batch_score_alerts`: score every alert, merge the score into
the alert record, and stable-sort by composite score, highest first
(Python's `sort` is stable; `List.insertionSort` with this relation realises
the same stable descending order). -/
def batch_score_alerts (now : ℚ) (alerts : List Alert) : List ScoredAlert :=
  List.insertionSort scored_rel
    (alerts.map (fun alert => ⟨alert, calculate_alert_score now alert⟩))

/-- Embeds `AlertDeduplicator.calculate_similarity`: weighted field matches plus a
linear time-proximity term; parsing a string `created_at` can raise. -/
def calculate_similarity (now : ℚ) (alert1 alert2 : Alert) : Except String ℚ := do
  let score : ℚ :=
    (if alert1.product_id = alert2.product_id then 2/5 else 0) +
    (if alert1.category = alert2.category then 3/10 else 0) +
    (if alert1.severity = alert2.severity then 1/5 else 0)
  let created1 ← toDatetime (alert1.created_at.getD (.dt now))
  let created2 ← toDatetime (alert2.created_at.getD (.dt now))
  let time_diff_hours := |created1 - created2|
  Except.ok (if time_diff_hours < 24 then score + (1/10) * (1 - time_diff_hours / 24) else score)

/-- The `severity_order` dict of `AlertDeduplicator.merge_alerts`, with the
`.get` default `0` for unknown severities. -/
def severity_rank (s : String) : ℕ :=
  if s = "critical" then 4
  else if s = "high" then 3
  else if s = "medium" then 2
  else if s = "low" then 1
  else 0

/-- Embeds `AlertDeduplicator.merge_alerts`: start from a copy of `primary`; take
the duplicate's severity if strictly higher-ranked, the duplicate's
confidence if strictly higher, append a nonempty duplicate description, and
accumulate the duplicate's id.  Direct `dict[key]` reads are `KeyError`s
when the key is absent. -/
def merge_alerts (primary duplicate : Alert) : Except String Alert := do
  let merged := primary
  let merged ←
    if severity_rank (duplicate.severity.getD "low") > severity_rank (primary.severity.getD "low") then
      match duplicate.severity with
      | some s => Except.ok { merged with severity := some s }
      | none => Except.error "KeyError: severity"
    else Except.ok merged
  let merged ←
    if duplicate.confidence.getD 0 > primary.confidence.getD 0 then
      match duplicate.confidence with
      | some c => Except.ok { merged with confidence := some c }
      | none => Except.error "KeyError: confidence"
    else Except.ok merged
  let merged ←
    match duplicate.description with
    | some d =>
      if d ≠ "" then
        match merged.description with
        | some pd => Except.ok { merged with description := some (pd ++ "\n[Merged] " ++ d) }
        | none => Except.error "KeyError: description"
      else Except.ok merged
    | none => Except.ok merged
  Except.ok { merged with merged_alert_ids := some (merged.merged_alert_ids.getD [] ++ [duplicate.id]) }

/-- Embeds `AlertEnricher.enrich_with_product_context`: copy product fields onto the
alert; when `current_stock` and `reorder_point` are both truthy (present and
nonzero), derive `stock_health` from `current_stock / (reorder_point + 0.01)`;
otherwise `stock_health` is left as it was (normally absent). -/
def enrich_with_product_context (alert : Alert) (product : Product) : Except String Alert :=
  let enriched := { alert with
    product_name := product.name
    product_sku := product.sku
    product_category := product.category
    current_stock := product.current_stock
    reorder_point := product.reorder_point }
  match product.current_stock, product.reorder_point with
  | some cs, some rp =>
    if cs ≠ 0 ∧ rp ≠ 0 then
      if rp + 1/100 = 0 then Except.error "ZeroDivisionError"
      else
        let sr := cs / (rp + 1/100)
        let health := if sr < 1/2 then "critical" else if sr < 1 then "warning" else "healthy"
        Except.ok { enriched with stock_health := some health }
    else Except.ok enriched
  | _, _ => Except.ok enriched

/-- The `SLA_TARGETS` dict of `SLAManager` (hours per priority tier), with
the `.get` default `72`. -/
def SLA_TARGETS (priority : String) : ℚ :=
  if priority = "p1" then 4
  else if priority = "p2" then 24
  else if priority = "p3" then 72
  else if priority = "p4" then 168
  else 72

/-- Embeds `SLAManager.calculate_sla_deadline`: creation time plus the tier's SLA
hours (priority defaults to `"p3"`, creation time to `now`). -/
def calculate_sla_deadline (now : ℚ) (alert : Alert) : Except String ℚ := do
  let priority := alert.priority.getD "p3"
  let created_at ← toDatetime (alert.created_at.getD (.dt now))
  Except.ok (created_at + SLA_TARGETS priority)

/-- The dict returned by `SLAManager.check_sla_breach` (`sla_deadline` kept
as a timestamp rather than its ISO rendering). -/
structure SLAResult where
  sla_status : String
  sla_deadline : ℚ
  time_remaining_hours : ℚ
  breach_risk : String
deriving DecidableEq, Repr

/-- Embeds `SLAManager.check_sla_breach`: classify the remaining time against the
deadline: `<0` breached, `<2` critical, `<12` warning, else ok, with the
paired breach risk. -/
def check_sla_breach (now : ℚ) (alert : Alert) : Except String SLAResult := do
  let deadline ← calculate_sla_deadline now alert
  let time_remaining := deadline - now
  let sr : String × String :=
    if time_remaining < 0 then ("breached", "high")
    else if time_remaining < 2 then ("critical", "high")
    else if time_remaining < 12 then ("warning", "medium")
    else ("ok", "low")
  Except.ok
    { sla_status := sr.1
      sla_deadline := deadline
      time_remaining_hours := py_round 2 time_remaining
      breach_risk := sr.2 }

/-- Embeds `SLAManager.determine_escalation`: the escalation chain on
(priority, SLA check). -/
def determine_escalation (now : ℚ) (alert : Alert) : Except String (Option String) := do
  let sla_check ← check_sla_breach now alert
  let priority := alert.priority.getD "p3"
  Except.ok
    (if priority = "p1" then
      if sla_check.sla_status = "breached" then some "executive"
      else if sla_check.sla_status = "critical" then some "director"
      else some "manager"
    else if priority = "p2" then
      if sla_check.breach_risk = "high" then some "director"
      else if sla_check.breach_risk = "medium" then some "manager"
      else none
    else if priority = "p3" then
      if sla_check.sla_status = "breached" then some "manager"
      else none
    else none)

/-- Step 4 of `DecisionEngine.process_alert`: the pair
`(escalation_level, requires_escalation)`, where
`requires_escalation = escalation_level is not None`. -/
def process_escalation (now : ℚ) (alert : Alert) : Except String (Option String × Bool) := do
  let escalation_level ← determine_escalation now alert
  Except.ok (escalation_level, escalation_level.isSome)

/-- The severity enum in its risk order `low < medium < high < critical`,
as an index (unknown strings have no index). -/
def severity_order_idx (s : String) : Option ℕ :=
  if s = "low" then some 0
  else if s = "medium" then some 1
  else if s = "high" then some 2
  else if s = "critical" then some 3
  else none

/-- A p1 alert created at time `t` (other fields absent). -/
def p1_alert (t : ℚ) : Alert := { priority := some "p1", created_at := some (.dt t) }

/-- The alert dict with every key absent. -/
def empty_alert : Alert := {}

/-- A product that is in stock but has `reorder_point = 0`. -/
def zero_reorder_product : Product := { current_stock := some 5, reorder_point := some 0 }

/-- The severity outcome of one merge step: the duplicate's severity if its
rank is strictly higher, else the primary's. -/
def sev_step (p d : String) : String :=
  if severity_rank d > severity_rank p then d else p

/-- The confidence outcome of one merge step: the duplicate's confidence if
strictly greater, else the primary's. -/
def conf_step (p d : ℚ) : ℚ := if d > p then d else p

/-- The description outcome of one merge step. -/
def desc_step (pd : String) (od : Option String) : String :=
  match od with
  | some d => if d ≠ "" then pd ++ "\n[Merged] " ++ d else pd
  | none => pd

/-! ## Helper lemmas -/

lemma round_half_even_bounds (q : ℚ) :
    ⌊q⌋ ≤ round_half_even q ∧ round_half_even q ≤ ⌊q⌋ + 1 := by
  unfold round_half_even
  split_ifs <;> omega

lemma round_half_even_mono {x y : ℚ} (h : x ≤ y) :
    round_half_even x ≤ round_half_even y := by
  have hf : ⌊x⌋ ≤ ⌊y⌋ := Int.floor_mono h
  rcases eq_or_lt_of_le hf with heq | hlt
  · unfold round_half_even
    rw [heq]
    have hfr : x - (⌊y⌋ : ℚ) ≤ y - (⌊y⌋ : ℚ) := by linarith
    split_ifs <;> first | omega | linarith
  · have b1 := round_half_even_bounds x
    have b2 := round_half_even_bounds y
    omega

lemma py_round_mono (n : ℕ) {x y : ℚ} (h : x ≤ y) : py_round n x ≤ py_round n y := by
  unfold py_round
  have hp : (0 : ℚ) < 10 ^ n := by positivity
  have hm : x * 10 ^ n ≤ y * 10 ^ n := mul_le_mul_of_nonneg_right h (le_of_lt hp)
  have := round_half_even_mono hm
  exact div_le_div_of_nonneg_right (by exact_mod_cast this) hp.le

lemma round_half_even_int (n : ℤ) : round_half_even (n : ℚ) = n := by
  unfold round_half_even
  norm_num

lemma priority_of_score_cases (x : ℚ) :
    priority_of_score x = "p1" ∨ priority_of_score x = "p2" ∨
    priority_of_score x = "p3" ∨ priority_of_score x = "p4" := by
  unfold priority_of_score
  split_ifs <;> simp

/-! ## C2: priority tier thresholds -/

/-- C2: priority tiers are determined by inclusive lower-bound thresholds on
the composite score: `≥ 0.8 → p1`, `[0.6, 0.8) → p2`, `[0.4, 0.6) → p3`,
`< 0.4 → p4`; the priority returned by `calculate_composite_risk` is this
function of the (unrounded) composite score, and in particular `0.8 → p1`,
`0.79999 → p2`, `0.6 → p2`, `0.4 → p3`, `0 → p4`. -/
theorem priority_tier_thresholds :
    (∀ s : ℚ,
      (4/5 ≤ s → priority_of_score s = "p1") ∧
      (3/5 ≤ s ∧ s < 4/5 → priority_of_score s = "p2") ∧
      (2/5 ≤ s ∧ s < 3/5 → priority_of_score s = "p3") ∧
      (s < 2/5 → priority_of_score s = "p4")) ∧
    (∀ (severity : String) (likelihood impact confidence ts : ℚ),
      (calculate_composite_risk severity likelihood impact confidence ts).priority =
        priority_of_score (composite_score_formula severity likelihood impact confidence ts)) ∧
    priority_of_score (4/5) = "p1" ∧ priority_of_score (79999/100000) = "p2" ∧
    priority_of_score (3/5) = "p2" ∧ priority_of_score (2/5) = "p3" ∧
    priority_of_score 0 = "p4" := by
  refine ⟨fun s => ⟨?_, ?_, ?_, ?_⟩, fun _ _ _ _ _ => rfl, ?_, ?_, ?_, ?_, ?_⟩ <;>
    first
    | (intro h; unfold priority_of_score;
        split_ifs <;> first | rfl | (exfalso; rcases h with ⟨h1, h2⟩ <;> linarith) | linarith)
    | norm_num [priority_of_score]

/-- Witness for C2 at a concrete score. -/
theorem priority_tier_thresholds_witness :
    priority_of_score (9/10) = "p1" ∧ priority_of_score (1/2) = "p3" :=
  ⟨(priority_tier_thresholds.1 (9/10)).1 (by norm_num),
   (priority_tier_thresholds.1 (1/2)).2.2.1 (by norm_num)⟩

/-! ## C6: unknown severity handling -/

/-- Counterexample for C6: an unrecognized severity is weighted `0.5`, not
the lowest-risk `0.25` of `'low'` — scoring an unknown severity differs from
scoring `'low'` on otherwise identical inputs. -/
theorem unknown_severity_counterexample :
    (calculate_composite_risk "unexpected" 0 0 0 1).components.severity = 1/2 ∧
    (calculate_composite_risk "low" 0 0 0 1).components.severity = 1/4 ∧
    (calculate_composite_risk "unexpected" 0 0 0 1).composite_score ≠
      (calculate_composite_risk "low" 0 0 0 1).composite_score := by
  have h1 : py_lower "unexpected" = "unexpected" := by decide
  have h2 : py_lower "low" = "low" := by decide
  have hw1 : severity_weight_of "unexpected" = 1/2 := by simp [severity_weight_of, h1]
  have hw2 : severity_weight_of "low" = 1/4 := by simp [severity_weight_of, h2]
  refine ⟨by simp [calculate_composite_risk, hw1], by simp [calculate_composite_risk, hw2], ?_⟩
  have e1 : composite_score_formula "unexpected" 0 0 0 1 = 3/20 := by
    simp [composite_score_formula, hw1]; norm_num
  have e2 : composite_score_formula "low" 0 0 0 1 = 3/40 := by
    simp [composite_score_formula, hw2]; norm_num
  have r1 : py_round 3 (3/20 : ℚ) = 3/20 := by norm_num [py_round, round_half_even]
  have r2 : py_round 3 (3/40 : ℚ) = 3/40 := by norm_num [py_round, round_half_even]
  simp [calculate_composite_risk, e1, e2, r1, r2]
  norm_num

/-- C6 as amended: an unrecognized severity (anything whose lower-casing is
none of the four known values) never fails and is scored with the *neutral*
weight `0.5` — i.e. exactly like `'medium'`, not like `'low'`. -/
theorem unknown_severity_neutral (severity : String) (likelihood impact confidence ts : ℚ)
    (h1 : py_lower severity ≠ "critical") (h2 : py_lower severity ≠ "high")
    (h3 : py_lower severity ≠ "medium") (h4 : py_lower severity ≠ "low") :
    (calculate_composite_risk severity likelihood impact confidence ts).components.severity = 1/2 ∧
    calculate_composite_risk severity likelihood impact confidence ts =
      calculate_composite_risk "medium" likelihood impact confidence ts := by
  have hm : py_lower "medium" = "medium" := by decide
  have hw : severity_weight_of severity = 1/2 := by
    simp [severity_weight_of, h1, h2, h3, h4]
  have hwm : severity_weight_of "medium" = 1/2 := by simp [severity_weight_of, hm]
  constructor
  · simp [calculate_composite_risk, hw]
  · simp [calculate_composite_risk, composite_score_formula, hw, hwm]

/-! ## C5: monotonicity of the composite score -/

lemma severity_weight_mono (s s' : String) (k k' : ℕ)
    (hs : severity_order_idx s = some k) (hs' : severity_order_idx s' = some k')
    (hk : k ≤ k') : severity_weight_of s ≤ severity_weight_of s' := by
  have wlow : severity_weight_of "low" = 1/4 := by
    simp [severity_weight_of, show py_lower "low" = "low" from by decide]
  have wmed : severity_weight_of "medium" = 1/2 := by
    simp [severity_weight_of, show py_lower "medium" = "medium" from by decide]
  have whigh : severity_weight_of "high" = 3/4 := by
    simp [severity_weight_of, show py_lower "high" = "high" from by decide]
  have wcrit : severity_weight_of "critical" = 1 := by
    simp [severity_weight_of, show py_lower "critical" = "critical" from by decide]
  unfold severity_order_idx at hs hs'
  split_ifs at hs hs' <;> simp_all <;> first | omega | norm_num

/-- C5: with `time_sensitivity ≥ 0` fixed (the scorer always passes a value
`≥ 0.5`), raising severity along `low < medium < high < critical` and/or
raising likelihood, impact or confidence never lowers the composite score —
neither the raw formula value nor the rounded `composite_score` field. -/
theorem composite_score_monotone
    (s s' : String) (k k' : ℕ) (l l' i i' c c' ts : ℚ)
    (hs : severity_order_idx s = some k) (hs' : severity_order_idx s' = some k')
    (hk : k ≤ k') (hl : l ≤ l') (hi : i ≤ i') (hc : c ≤ c') (hts : 0 ≤ ts) :
    composite_score_formula s l i c ts ≤ composite_score_formula s' l' i' c' ts ∧
    (calculate_composite_risk s l i c ts).composite_score ≤
      (calculate_composite_risk s' l' i' c' ts).composite_score := by
  have hw := severity_weight_mono s s' k k' hs hs' hk
  have hraw : composite_score_formula s l i c ts ≤ composite_score_formula s' l' i' c' ts := by
    unfold composite_score_formula
    apply mul_le_mul_of_nonneg_right _ hts
    linarith
  exact ⟨hraw, py_round_mono 3 hraw⟩

/-- Witness for C5: raising severity from low to critical and confidence
from 0.1 to 0.9 does not lower the composite score. -/
theorem composite_score_monotone_witness :
    composite_score_formula "low" 0 0 (1/10) 1 ≤ composite_score_formula "critical" 0 0 (9/10) 1 ∧
    (calculate_composite_risk "low" 0 0 (1/10) 1).composite_score ≤
      (calculate_composite_risk "critical" 0 0 (9/10) 1).composite_score :=
  composite_score_monotone "low" "critical" 0 3 0 0 0 0 (1/10) (9/10) 1
    (by decide) (by decide) (by norm_num) le_rfl le_rfl (by norm_num) (by norm_num)

/-! ## C1: SLA boundaries for priority p1 -/

/-- Counterexample for C1 (evaluation time 100): a p1 alert created exactly
4 hours ago has `sla_status = "critical"` (not `"breached"`), and alerts
created 1 hour ago or right now have `sla_status = "warning"` (not `"ok"`),
because a p1 SLA target of 4 hours always leaves less than 12 hours
remaining. -/
theorem sla_boundary_counterexample :
    ¬ ((check_sla_breach 100 (p1_alert 96)).map SLAResult.sla_status = Except.ok "breached" ∧
       (check_sla_breach 100 (p1_alert 99)).map SLAResult.sla_status = Except.ok "ok" ∧
       (check_sla_breach 100 (p1_alert 100)).map SLAResult.sla_status = Except.ok "ok") ∧
    (check_sla_breach 100 (p1_alert 96)).map SLAResult.sla_status = Except.ok "critical" ∧
    (check_sla_breach 100 (p1_alert 99)).map SLAResult.sla_status = Except.ok "warning" ∧
    (check_sla_breach 100 (p1_alert 100)).map SLAResult.sla_status = Except.ok "warning" := by
  have h96 : (check_sla_breach 100 (p1_alert 96)).map SLAResult.sla_status = Except.ok "critical" := by
    simp [check_sla_breach, calculate_sla_deadline, p1_alert, toDatetime, SLA_TARGETS,
      Except.map, Except.bind, bind]
    norm_num
  have h99 : (check_sla_breach 100 (p1_alert 99)).map SLAResult.sla_status = Except.ok "warning" := by
    simp [check_sla_breach, calculate_sla_deadline, p1_alert, toDatetime, SLA_TARGETS,
      Except.map, Except.bind, bind]
    norm_num
  have h100 : (check_sla_breach 100 (p1_alert 100)).map SLAResult.sla_status = Except.ok "warning" := by
    simp [check_sla_breach, calculate_sla_deadline, p1_alert, toDatetime, SLA_TARGETS,
      Except.map, Except.bind, bind]
    norm_num
  refine ⟨?_, h96, h99, h100⟩
  rintro ⟨hb, _, _⟩
  rw [h96] at hb
  simp at hb

/-- C1 as amended: for a p1 alert evaluated at `now`, creation exactly 4
hours before `now` (zero time remaining) yields `sla_status = "critical"`;
creation 2.5 hours before yields `"critical"`; creation 1 hour before yields
`"warning"`; creation at `now` itself yields `"warning"` (4 hours remaining
is still below the 12-hour warning threshold). -/
theorem sla_boundary_p1 (now : ℚ) (a : Alert) (hp : a.priority = some "p1") :
    (a.created_at = some (.dt (now - 4)) →
      (check_sla_breach now a).map SLAResult.sla_status = Except.ok "critical") ∧
    (a.created_at = some (.dt (now - 5/2)) →
      (check_sla_breach now a).map SLAResult.sla_status = Except.ok "critical") ∧
    (a.created_at = some (.dt (now - 1)) →
      (check_sla_breach now a).map SLAResult.sla_status = Except.ok "warning") ∧
    (a.created_at = some (.dt now) →
      (check_sla_breach now a).map SLAResult.sla_status = Except.ok "warning") := by
  refine ⟨fun h => ?_, fun h => ?_, fun h => ?_, fun h => ?_⟩ <;>
    (simp [check_sla_breach, calculate_sla_deadline, hp, h, toDatetime, SLA_TARGETS,
        Except.map, Except.bind, bind] <;>
      split_ifs <;> first | rfl | (exfalso; linarith))

/-- Witness for C1's amended theorem: the concrete alerts of the
counterexample, via the general statement. -/
theorem sla_boundary_p1_witness :
    (check_sla_breach 100 (p1_alert 96)).map SLAResult.sla_status = Except.ok "critical" ∧
    (check_sla_breach 100 (p1_alert 100)).map SLAResult.sla_status = Except.ok "warning" :=
  ⟨(sla_boundary_p1 100 (p1_alert 96) rfl).1 (by norm_num [p1_alert]),
   (sla_boundary_p1 100 (p1_alert 100) rfl).2.2.2 rfl⟩

/-! ## C3: escalation table -/

/-- C3: the escalation level is the §4.5 transition table applied to
(priority tier, SLA state): p1 escalates breached→executive,
critical→director, otherwise→manager; p2 escalates by breach risk
high→director, medium→manager, otherwise none; p3 escalates only when
breached (→manager); p4 never; and `requires_escalation` is true exactly
when the level is not `none`. -/
theorem escalation_table (now : ℚ) (a : Alert) (st : SLAResult)
    (hs : check_sla_breach now a = Except.ok st) :
    (a.priority = some "p1" → determine_escalation now a = Except.ok (some
      (if st.sla_status = "breached" then "executive"
       else if st.sla_status = "critical" then "director" else "manager"))) ∧
    (a.priority = some "p2" → determine_escalation now a = Except.ok
      (if st.breach_risk = "high" then some "director"
       else if st.breach_risk = "medium" then some "manager" else none)) ∧
    (a.priority = some "p3" → determine_escalation now a = Except.ok
      (if st.sla_status = "breached" then some "manager" else none)) ∧
    (a.priority = some "p4" → determine_escalation now a = Except.ok none) ∧
    (∀ lvl req, process_escalation now a = Except.ok (lvl, req) → (req = true ↔ lvl ≠ none)) := by
  refine ⟨fun hp => ?_, fun hp => ?_, fun hp => ?_, fun hp => ?_, ?_⟩
  · simp [determine_escalation, hs, hp, Except.bind, bind]
    split_ifs <;> rfl
  · simp [determine_escalation, hs, hp, Except.bind, bind]
  · simp [determine_escalation, hs, hp, Except.bind, bind]
  · simp [determine_escalation, hs, hp, Except.bind, bind]
  · intro lvl req hpr
    obtain ⟨l, hl⟩ : ∃ l, determine_escalation now a = Except.ok l := by
      simp [determine_escalation, hs, Except.bind, bind]
    simp [process_escalation, hl, Except.bind, bind] at hpr
    obtain ⟨h1, h2⟩ := hpr
    subst h1
    subst h2
    simp [Option.isSome_iff_ne_none]

/-- Witness for C3: a p1 alert far past its deadline escalates to executive,
with `requires_escalation = true`. -/
theorem escalation_table_witness :
    determine_escalation 100 (p1_alert 0) = Except.ok (some "executive") ∧
    process_escalation 100 (p1_alert 0) = Except.ok (some "executive", true) := by
  have hs : check_sla_breach 100 (p1_alert 0) =
      Except.ok { sla_status := "breached", sla_deadline := 4,
                  time_remaining_hours := -96, breach_risk := "high" } := by
    simp [check_sla_breach, calculate_sla_deadline, p1_alert, toDatetime, SLA_TARGETS,
      Except.bind, bind]
    norm_num [py_round, round_half_even]
  have h1 := (escalation_table 100 (p1_alert 0) _ hs).1 rfl
  simp at h1
  refine ⟨h1, ?_⟩
  simp [process_escalation, h1, Except.bind, bind]

/-! ## C7: stock health derivation -/

/-- Counterexample for C7: with `current_stock = 5` and `reorder_point = 0`
the claim's ratio is `5 / (0 + 0.01) = 500`, so it predicts
`stock_health = "healthy"`; but `0` is falsy in the guard
`if current_stock and reorder_point:`, so enrichment sets no `stock_health`
at all. -/
theorem stock_health_counterexample :
    (enrich_with_product_context empty_alert zero_reorder_product).map Alert.stock_health =
      Except.ok none ∧
    ¬ ((enrich_with_product_context empty_alert zero_reorder_product).map Alert.stock_health =
      Except.ok (some "healthy")) := by
  have h : (enrich_with_product_context empty_alert zero_reorder_product).map Alert.stock_health =
      Except.ok none := by
    simp [enrich_with_product_context, empty_alert, zero_reorder_product, Except.map]
  refine ⟨h, fun hc => ?_⟩
  rw [h] at hc
  simp at hc

/-- C7 as amended: `stock_health` is derived only when `current_stock` and
`reorder_point` are both present *and nonzero* (Python truthiness); then
`ratio = current_stock / (reorder_point + 0.01)` gives critical below 0.5,
warning below 1.0, else healthy.  When either value is 0 (or absent) the
guard fails and `stock_health` is left unset, so the ε never actually
rescues a zero `reorder_point`. -/
theorem stock_health_conditions (a : Alert) (p : Product) (cs rp : ℚ)
    (hcs : p.current_stock = some cs) (hrp : p.reorder_point = some rp) :
    (cs ≠ 0 → rp ≠ 0 → rp + 1/100 ≠ 0 →
      (enrich_with_product_context a p).map Alert.stock_health =
        Except.ok (some (if cs / (rp + 1/100) < 1/2 then "critical"
          else if cs / (rp + 1/100) < 1 then "warning" else "healthy"))) ∧
    (cs = 0 ∨ rp = 0 →
      (enrich_with_product_context a p).map Alert.stock_health = Except.ok a.stock_health) := by
  constructor
  · intro h1 h2 h3
    rw [one_div] at h3
    simp [enrich_with_product_context, hcs, hrp, h1, h2, h3, Except.map]
  · intro h
    have hne : ¬ (cs ≠ 0 ∧ rp ≠ 0) := by
      rcases h with h | h <;> simp [h]
    simp [enrich_with_product_context, hcs, hrp, hne, Except.map]

/-- Witness for C7's amended theorem: a healthy product and a zero-stock
product. -/
theorem stock_health_conditions_witness :
    (enrich_with_product_context empty_alert
        { current_stock := some 20, reorder_point := some 10 }).map Alert.stock_health =
      Except.ok (some "healthy") ∧
    (enrich_with_product_context empty_alert
        { current_stock := some 0, reorder_point := some 10 }).map Alert.stock_health =
      Except.ok none := by
  constructor
  · have h := (stock_health_conditions empty_alert
      { current_stock := some 20, reorder_point := some 10 } 20 10 rfl rfl).1
      (by norm_num) (by norm_num) (by norm_num)
    rw [h]
    norm_num
  · exact (stock_health_conditions empty_alert
      { current_stock := some 0, reorder_point := some 10 } 0 10 rfl rfl).2 (Or.inl rfl)

/-! ## C9: self-similarity is 1 -/

/-- C9: every alert whose stored creation time is not an unparseable string
has similarity exactly 1.0 with itself: all three field matches hold
trivially (also when the fields are absent) and the time gap is zero. -/
theorem similarity_self (now : ℚ) (a : Alert)
    (h : a.created_at ≠ some (.str .malformed)) :
    calculate_similarity now a a = Except.ok 1 := by
  obtain ⟨t, ht⟩ : ∃ t, toDatetime (a.created_at.getD (.dt now)) = Except.ok t := by
    match hca : a.created_at with
    | none => exact ⟨now, rfl⟩
    | some (.dt t) => exact ⟨t, rfl⟩
    | some (.str (.wellFormed t)) => exact ⟨t, rfl⟩
    | some (.str .malformed) => exact absurd hca h
  simp [calculate_similarity, ht, Except.bind, bind]
  norm_num

/-- Witness for C9 at the empty alert (all fields absent). -/
theorem similarity_self_witness : calculate_similarity 0 empty_alert empty_alert = Except.ok 1 :=
  similarity_self 0 empty_alert (by simp [empty_alert])

/-! ## C8: total alert scoring with neutral defaults -/

/-- C8: `calculate_alert_score` always returns a result with a priority in
{p1..p4}; a missing confidence, impact or likelihood scores exactly as the
neutral `0.5`; and the one internally fallible step (parsing a malformed
creation-time string) is caught, yielding the neutral fallback
`composite_score = 0.5`, `priority = "p3"`. -/
theorem alert_scoring_total (now : ℚ) (a : Alert) :
    ((calculate_alert_score now a).priority = "p1" ∨ (calculate_alert_score now a).priority = "p2" ∨
     (calculate_alert_score now a).priority = "p3" ∨ (calculate_alert_score now a).priority = "p4") ∧
    (a.confidence = none →
      calculate_alert_score now a = calculate_alert_score now { a with confidence := some (1/2) }) ∧
    (a.impact_score = none →
      calculate_alert_score now a = calculate_alert_score now { a with impact_score := some (1/2) }) ∧
    (a.likelihood = none →
      calculate_alert_score now a = calculate_alert_score now { a with likelihood := some (1/2) }) ∧
    (a.created_at = some (.str .malformed) →
      (calculate_alert_score now a).composite_score = 1/2 ∧
      (calculate_alert_score now a).priority = "p3") := by
  refine ⟨?_, fun h => ?_, fun h => ?_, fun h => ?_, fun h => ?_⟩
  · unfold calculate_alert_score
    cases hi : calculate_alert_score_inner now a with
    | error e => simp
    | ok r =>
      cases ht : toDatetime (a.created_at.getD (.dt now)) with
      | error e => simp [calculate_alert_score_inner, ht, Except.bind, bind] at hi
      | ok t =>
        simp only [calculate_alert_score_inner, ht, Except.bind, bind, Except.ok.injEq] at hi
        subst hi
        dsimp [calculate_composite_risk]
        exact priority_of_score_cases _
  · unfold calculate_alert_score calculate_alert_score_inner
    simp [h]
  · unfold calculate_alert_score calculate_alert_score_inner
    simp [h]
  · unfold calculate_alert_score calculate_alert_score_inner
    simp [h]
  · simp [calculate_alert_score, calculate_alert_score_inner, h, toDatetime, fromisoformat,
      Except.bind, bind]

/-- Witness for C8: a fully-empty alert scores the same as one with the
explicit neutral confidence, and a malformed creation time falls back to
priority `"p3"`. -/
theorem alert_scoring_total_witness :
    calculate_alert_score 0 empty_alert =
      calculate_alert_score 0 { empty_alert with confidence := some (1/2) } ∧
    (calculate_alert_score 0 { empty_alert with created_at := some (.str .malformed) }).priority
      = "p3" :=
  ⟨(alert_scoring_total 0 empty_alert).2.1 rfl,
   ((alert_scoring_total 0 { empty_alert with created_at := some (.str .malformed) }).2.2.2.2
      rfl).2⟩

/-! ## C10: batch scoring returns a sorted permutation -/

/-- C10: `batch_score_alerts` returns exactly the scored input records (a
permutation, hence one output per input) arranged so every later record has
composite score less than or equal to every earlier one (highest first). -/
theorem batch_score_sorted_permutation (now : ℚ) (alerts : List Alert) :
    (batch_score_alerts now alerts).Perm
      (alerts.map (fun alert => ⟨alert, calculate_alert_score now alert⟩)) ∧
    (batch_score_alerts now alerts).length = alerts.length ∧
    List.Pairwise scored_rel (batch_score_alerts now alerts) := by
  refine ⟨List.perm_insertionSort _ _, ?_, List.sorted_insertionSort _ _⟩
  unfold batch_score_alerts
  rw [(List.perm_insertionSort _ _).length_eq, List.length_map]

/-! ## C4: merge order-independence -/

lemma severity_rank_inj (x y : String) (hxy : severity_rank x = severity_rank y)
    (hpos : 0 < severity_rank x) : x = y := by
  unfold severity_rank at hxy hpos
  split_ifs at hxy hpos <;> simp_all

lemma sev_step_comm (a b c : String) :
    sev_step (sev_step a b) c = sev_step (sev_step a c) b := by
  unfold sev_step
  split_ifs with h1 h2 h3 h4 h5 h6 h7 h8 <;> try rfl
  all_goals
    first
    | omega
    | (exact severity_rank_inj _ _ (by omega) (by omega))

lemma conf_step_comm (a b c : ℚ) :
    conf_step (conf_step a b) c = conf_step (conf_step a c) b := by
  unfold conf_step
  split_ifs <;> first | rfl | linarith

/-- Characterisation of one merge under the data model's required fields:
when primary and duplicate both carry severity and confidence and the
primary carries a description, the merge succeeds and is a record update of
the primary. -/
lemma merge_alerts_ok (P D : Alert) (ps pd : String) (pc : ℚ) (ds : String) (dc : ℚ)
    (hps : P.severity = some ps) (hpc : P.confidence = some pc)
    (hpd : P.description = some pd)
    (hds : D.severity = some ds) (hdc : D.confidence = some dc) :
    merge_alerts P D = Except.ok { P with
      severity := some (sev_step ps ds)
      confidence := some (conf_step pc dc)
      description := some (desc_step pd D.description)
      merged_alert_ids := some (P.merged_alert_ids.getD [] ++ [D.id]) } := by
  unfold merge_alerts sev_step conf_step desc_step
  rcases D with ⟨di, dpid, dcat, dsev, ddesc, dconf, _, _, _, _, _, _, _, _, _, _, _, _⟩
  rcases P with ⟨pi, ppid, pcat, psev, pdesc, pconf, _, _, _, _, _, _, _, _, _, _, _, _⟩
  simp only at hps hpc hpd hds hdc
  subst hps
  subst hpc
  subst hpd
  subst hds
  subst hdc
  simp only [Option.getD_some, Except.bind, bind]
  split_ifs <;> cases ddesc <;> dsimp only <;> (try split_ifs) <;> rfl

/-- C4: merging duplicates D1 then D2 into primary P gives the same final
severity and the same final confidence as merging D2 then D1, whenever the
three records carry the fields the merge reads directly (severity and
confidence on each, a description on the primary) — severity is the
rank-maximum, confidence the numeric maximum, independent of order. -/
theorem merge_order_independent (P D1 D2 : Alert) (ps pd : String) (pc : ℚ)
    (d1s : String) (d1c : ℚ) (d2s : String) (d2c : ℚ)
    (hps : P.severity = some ps) (hpc : P.confidence = some pc)
    (hpd : P.description = some pd)
    (hd1s : D1.severity = some d1s) (hd1c : D1.confidence = some d1c)
    (hd2s : D2.severity = some d2s) (hd2c : D2.confidence = some d2c) :
    ∃ X Y, (merge_alerts P D1).bind (fun m => merge_alerts m D2) = Except.ok X ∧
           (merge_alerts P D2).bind (fun m => merge_alerts m D1) = Except.ok Y ∧
           X.severity = Y.severity ∧ X.confidence = Y.confidence := by
  rw [merge_alerts_ok P D1 ps pd pc d1s d1c hps hpc hpd hd1s hd1c]
  rw [merge_alerts_ok P D2 ps pd pc d2s d2c hps hpc hpd hd2s hd2c]
  simp only [Except.bind, bind]
  rw [merge_alerts_ok _ D2 (sev_step ps d1s) (desc_step pd D1.description) (conf_step pc d1c)
    d2s d2c rfl rfl rfl hd2s hd2c]
  rw [merge_alerts_ok _ D1 (sev_step ps d2s) (desc_step pd D2.description) (conf_step pc d2c)
    d1s d1c rfl rfl rfl hd1s hd1c]
  refine ⟨_, _, rfl, rfl, ?_, ?_⟩
  · simp [sev_step_comm]
  · simp [conf_step_comm]

/-- Witness for C4 at concrete alerts: primary low severity, duplicates of
high and critical severity. -/
theorem merge_order_independent_witness :
    ∃ X Y, (merge_alerts
        { severity := some "low", confidence := some (1/2), description := some "p" }
        { severity := some "high", confidence := some (3/4) }).bind
        (fun m => merge_alerts m { severity := some "critical", confidence := some (3/5) }) =
        Except.ok X ∧
      (merge_alerts
        { severity := some "low", confidence := some (1/2), description := some "p" }
        { severity := some "critical", confidence := some (3/5) }).bind
        (fun m => merge_alerts m { severity := some "high", confidence := some (3/4) }) =
        Except.ok Y ∧
      X.severity = Y.severity ∧ X.confidence = Y.confidence :=
  merge_order_independent _ _ _ "low" "p" (1/2) "high" (3/4) "critical" (3/5)
    rfl rfl rfl rfl rfl rfl rfl

/-- Witness for C6's amended theorem at the severity string `"unexpected"`. -/
theorem unknown_severity_neutral_witness :
    (calculate_composite_risk "unexpected" 0 0 0 1).components.severity = 1/2 ∧
    calculate_composite_risk "unexpected" 0 0 0 1 = calculate_composite_risk "medium" 0 0 0 1 :=
  unknown_severity_neutral "unexpected" 0 0 0 1 (by decide) (by decide) (by decide) (by decide)
